import Mathlib

/-!
# ducksync — verification of the spec against the source

Shallow embedding of the ducksync dynamic-DNS client (src/main.rs,
src/config.rs, src/duckdns.rs, src/ipify.rs).  Network transports and the
filesystem are modelled as explicit oracles passed to the embedded
functions; every other step is transcribed from the Rust source.
-/

set_option maxRecDepth 4000

/-! ## IP addresses (model of `std::net::IpAddr` as used by the code)

The code calls `str::parse::<IpAddr>()` (tries IPv4 dotted-quad first, then
IPv6) and `IpAddr::to_string()`.  We model the address as a tagged union and
transcribe the standard textual grammar: IPv4 is four decimal octets 0-255
with no leading zeros; IPv6 is hex groups separated by `:` with at most one
`::` and an optional embedded IPv4 tail. -/

inductive IpAddr where
  | v4 (a b c d : Nat)
  | v6 (groups : List Nat)
deriving DecidableEq, Repr

def isDigitChar (c : Char) : Bool := '0' ≤ c && c ≤ '9'

def isHexChar (c : Char) : Bool :=
  isDigitChar c || ('a' ≤ c && c ≤ 'f') || ('A' ≤ c && c ≤ 'F')

def hexVal (c : Char) : Nat :=
  if isDigitChar c then c.toNat - '0'.toNat
  else if 'a' ≤ c && c ≤ 'f' then c.toNat - 'a'.toNat + 10
  else c.toNat - 'A'.toNat + 10

def splitOnCharAux (c : Char) : List Char → List Char → List (List Char)
  | [], acc => [acc.reverse]
  | x :: xs, acc =>
    if x = c then acc.reverse :: splitOnCharAux c xs []
    else splitOnCharAux c xs (x :: acc)

def splitOnChar (c : Char) (s : List Char) : List (List Char) :=
  splitOnCharAux c s []

/-- A decimal octet of an IPv4 literal: 1-3 digits, value ≤ 255, no leading
zero (the standard parser rejects `"01"` but accepts `"0"`). -/
def parseDecOctet (cs : List Char) : Option Nat :=
  if cs = [] then none
  else if !cs.all isDigitChar then none
  else if cs.length > 3 then none
  else if cs.length > 1 && cs.headD '0' = '0' then none
  else
    let v := cs.foldl (fun acc c => acc * 10 + (c.toNat - '0'.toNat)) 0
    if v ≤ 255 then some v else none

def parseIpv4Chars (cs : List Char) : Option (Nat × Nat × Nat × Nat) :=
  match splitOnChar '.' cs with
  | [p1, p2, p3, p4] => do
    let a ← parseDecOctet p1
    let b ← parseDecOctet p2
    let c ← parseDecOctet p3
    let d ← parseDecOctet p4
    pure (a, b, c, d)
  | _ => none

/-- A hex group of an IPv6 literal: 1-4 hex digits. -/
def parseHexGroup (cs : List Char) : Option Nat :=
  if cs = [] then none
  else if !cs.all isHexChar then none
  else if cs.length > 4 then none
  else some (cs.foldl (fun acc c => acc * 16 + hexVal c) 0)

/-- Split at the first `"::"`, when present. -/
def findSplit2 : List Char → Option (List Char × List Char)
  | [] => none
  | [_] => none
  | x :: y :: rest =>
    if x = ':' && y = ':' then some ([], rest)
    else (findSplit2 (y :: rest)).map (fun p => (x :: p.1, p.2))

/-- Parse colon-separated pieces into 16-bit groups; when `allowV4Tail` the
final piece may be an embedded IPv4 literal contributing two groups. -/
def parseGroups : List (List Char) → Bool → Option (List Nat)
  | [], _ => some []
  | [last], allowV4Tail =>
    match parseHexGroup last with
    | some g => some [g]
    | none =>
      if allowV4Tail then
        (parseIpv4Chars last).map (fun x => [x.1 * 256 + x.2.1, x.2.2.1 * 256 + x.2.2.2])
      else none
  | p :: q :: rest, allowV4Tail => do
    let g ← parseHexGroup p
    let gs ← parseGroups (q :: rest) allowV4Tail
    pure (g :: gs)

def parseIpv6Chars (cs : List Char) : Option (List Nat) :=
  match findSplit2 cs with
  | none =>
    match parseGroups (splitOnChar ':' cs) true with
    | some gs => if gs.length = 8 then some gs else none
    | none => none
  | some (l, r) =>
    let lparts := if l = [] then [] else splitOnChar ':' l
    let rparts := if r = [] then [] else splitOnChar ':' r
    match parseGroups lparts false, parseGroups rparts true with
    | some lgs, some rgs =>
      if lgs.length + rgs.length ≤ 7 then
        some (lgs ++ List.replicate (8 - lgs.length - rgs.length) 0 ++ rgs)
      else none
    | _, _ => none

/-- `str::parse::<IpAddr>()`: IPv4 first, then IPv6; on failure the error
message rendered by the code is `"invalid IP address syntax"`. -/
def parseIpAddr (s : String) : Option IpAddr :=
  match parseIpv4Chars s.data with
  | some x => some (.v4 x.1 x.2.1 x.2.2.1 x.2.2.2)
  | none => (parseIpv6Chars s.data).map .v6

def addrParseErrorMsg : String := "invalid IP address syntax"

/-! ### Display (model of `IpAddr::to_string()`) -/

def ipv4ToString (a b c d : Nat) : String :=
  toString a ++ "." ++ toString b ++ "." ++ toString c ++ "." ++ toString d

def hexDigitChar (n : Nat) : Char :=
  if n < 10 then Char.ofNat ('0'.toNat + n) else Char.ofNat ('a'.toNat + n - 10)

def hexGroupStrAux : Nat → Nat → List Char
  | 0, _ => []
  | _ + 1, 0 => []
  | fuel + 1, n => hexGroupStrAux fuel (n / 16) ++ [hexDigitChar (n % 16)]

/-- Lowercase hex, no leading zeros, `"0"` for zero. -/
def hexGroupStr (n : Nat) : String :=
  if n = 0 then "0" else ⟨hexGroupStrAux 4 n⟩

/-- Leftmost longest run (length ≥ 2) of zero groups, as (start, length). -/
def longestZeroRun (gs : List Nat) : Option (Nat × Nat) :=
  let runLenFrom := fun (i : Nat) =>
    ((gs.drop i).takeWhile (· = 0)).length
  let candidates := (List.range gs.length).map (fun i => (i, runLenFrom i))
  candidates.foldl
    (fun best c =>
      match best with
      | none => if c.2 ≥ 2 then some c else none
      | some b => if c.2 > b.2 then some c else some b)
    none

def joinColon (parts : List String) : String := String.intercalate ":" parts

/-- Model of `Ipv6Addr`'s `Display`: the IPv4-mapped form is shown with a
dotted-quad tail, otherwise the leftmost longest zero run of length ≥ 2 is
compressed to `::`. -/
def ipv6ToString (gs : List Nat) : String :=
  match gs with
  | [0, 0, 0, 0, 0, 0xffff, h, l] =>
    "::ffff:" ++ ipv4ToString (h / 256) (h % 256) (l / 256) (l % 256)
  | _ =>
    match longestZeroRun gs with
    | none => joinColon (gs.map hexGroupStr)
    | some (start, len) =>
      joinColon ((gs.take start).map hexGroupStr) ++ "::" ++
        joinColon ((gs.drop (start + len)).map hexGroupStr)

def ipToString : IpAddr → String
  | .v4 a b c d => ipv4ToString a b c d
  | .v6 gs => ipv6ToString gs

/-! ## Configuration (src/config.rs and the identical inline copy in src/main.rs)

`Config` / `Domain` / the ip sum type are shared between the two files
(`ConfigIp` in main.rs, `Ip` in config.rs) with identical shape. -/

inductive ConfigIp where
  | public
  | iPv4 (s : String)
  | iPv6 (s : String)
deriving DecidableEq, Repr

structure Domain where
  name : String
  token : String
  ip : Option ConfigIp
deriving DecidableEq, Repr

structure Config where
  domains : List Domain
deriving DecidableEq, Repr

/-- The resolved config file as the filesystem presents it: `mode` is the
full `st_mode` returned by `permissions().mode()`, `content` its text. -/
structure FsFile where
  mode : Nat
  content : String

inductive FsEvent where
  | readMetadata (path : String)
  | readContent (path : String)
deriving DecidableEq, Repr

/-- src/main.rs `check_secure_file_mode`: mask to the permission bits and
demand exactly 0o600, else a PermissionDenied error. -/
def check_secure_file_mode (path : String) (f : FsFile) : Except String Unit :=
  let mode := f.mode &&& 0o777
  if mode ≠ 0o600 then
    .error ("Config file " ++ path ++ " must have mode 600")
  else .ok ()

def natToOctalAux : Nat → Nat → List Char
  | 0, _ => []
  | _ + 1, 0 => []
  | fuel + 1, n => natToOctalAux fuel (n / 8) ++ [Char.ofNat ('0'.toNat + n % 8)]

def natToOctal (n : Nat) : String :=
  if n = 0 then "0" else ⟨natToOctalAux 12 n⟩

/-- src/config.rs `Config::check_secure_file_mode`: same gate, with the
found permission bits rendered in octal in the message. -/
def Config.check_secure_file_mode (path : String) (f : FsFile) : Except String Unit :=
  let mode := f.mode &&& 0o777
  if mode ≠ 0o600 then
    .error ("Config file '" ++ path ++ "' must have mode 600, found " ++ natToOctal mode)
  else .ok ()

/-- src/main.rs `load_config`, after path resolution: check the mode gate,
then read the file, then parse it with serde_yaml (modelled as the oracle
`parseYaml`).  The returned event list records which filesystem reads
happened, in order. -/
def load_config_at (path : String) (f : FsFile)
    (parseYaml : String → Except String Config) : Except String Config × List FsEvent :=
  match check_secure_file_mode path f with
  | .error e => (.error e, [.readMetadata path])
  | .ok _ =>
    (match parseYaml f.content with
     | .ok c => .ok c
     | .error e => .error e,
     [.readMetadata path, .readContent path])

/-- src/config.rs `Config::load`, after `get_config_path`: the same
check-then-read-then-parse sequence. -/
def Config.load_at (path : String) (f : FsFile)
    (parseYaml : String → Except String Config) : Except String Config × List FsEvent :=
  match Config.check_secure_file_mode path f with
  | .error e => (.error e, [.readMetadata path])
  | .ok _ =>
    (match parseYaml f.content with
     | .ok c => .ok c
     | .error e => .error e,
     [.readMetadata path, .readContent path])

/-! ## Public-IP discovery (src/ipify.rs and the inline copies in src/main.rs) -/

def IPIFY_API4 : String := "https://api.ipify.org?format=text"
def IPIFY_API6 : String := "https://api6.ipify.org?format=text"

/-- Outcome of one HTTP GET: the send can fail, reading the body can fail,
or a response with some status and body text arrives. -/
inductive HttpOutcome where
  | sendErr (e : String)
  | textErr (e : String)
  | response (status : Nat) (body : String)
deriving DecidableEq, Repr

/-- src/ipify.rs `impl IpFetcher for reqwest::Client`: transport errors are
stringified; on a response the body text is returned — the HTTP status is
never inspected. -/
def reqwestFetchIp (o : HttpOutcome) : Except String String :=
  match o with
  | .sendErr e => .error e
  | .textErr e => .error e
  | .response _ body => .ok body

/-- src/ipify.rs `Ipify::get`: fetch, then parse the body as an `IpAddr`
(either family). -/
def Ipify.get (fetchResult : Except String String) : Except String IpAddr :=
  match fetchResult with
  | .error e => .error e
  | .ok body =>
    match parseIpAddr body with
    | some ip => .ok ip
    | none => .error addrParseErrorMsg

/-- src/ipify.rs `Ipify::ipv4`: one fetch of the v4 endpoint; the second
component records the requests issued. -/
def Ipify.ipv4 (fetcher : String → Except String String) :
    Except String IpAddr × List String :=
  (Ipify.get (fetcher IPIFY_API4), [IPIFY_API4])

/-- src/ipify.rs `Ipify::ipv6`: one fetch of the v6 endpoint. -/
def Ipify.ipv6 (fetcher : String → Except String String) :
    Except String IpAddr × List String :=
  (Ipify.get (fetcher IPIFY_API6), [IPIFY_API6])

/-- src/main.rs `resolve_public_ip`: same send/text/parse pipeline, inline. -/
def resolve_public_ip (o : HttpOutcome) : Except String IpAddr :=
  match o with
  | .sendErr e => .error e
  | .textErr e => .error e
  | .response _ body =>
    match parseIpAddr body with
    | some ip => .ok ip
    | none => .error addrParseErrorMsg

/-- src/main.rs `resolve_public_ipv6`: identical pipeline against the v6
endpoint. -/
def resolve_public_ipv6 (o : HttpOutcome) : Except String IpAddr :=
  match o with
  | .sendErr e => .error e
  | .textErr e => .error e
  | .response _ body =>
    match parseIpAddr body with
    | some ip => .ok ip
    | none => .error addrParseErrorMsg

/-! ## DuckDNS update client (src/duckdns.rs and the inline copy in src/main.rs)

The query parameter maps are `HashMap<&'static str, String>`; since every
key inserted is a distinct literal, we model the map as the association
list of inserts in program order (equal lists ⇔ equal maps here). -/

inductive TransportOutcome where
  | sendErr (e : String)
  | textErr (e : String)
  | body (s : String)
deriving DecidableEq, Repr

/-- src/duckdns.rs `impl DuckDnsClient for reqwest::Client`
(`send_request`): transport errors are wrapped with the two fixed
prefixes, a received body is returned as-is. -/
def reqwestSendRequest (o : TransportOutcome) : Except String String :=
  match o with
  | .sendErr e => .error ("Error sending request: " ++ e)
  | .textErr e => .error ("Error reading response body: " ++ e)
  | .body s => .ok s

/-- Rust `str::starts_with` (byte prefix; on UTF-8 text this is character
prefix, which is what we model). -/
def strStartsWith (s p : String) : Bool := p.data.isPrefixOf s.data

def boolToString (b : Bool) : String := if b then "true" else "false"

/-- src/main.rs `DuckDns::update`, parameter-building part (lines 136-154). -/
def mainBuildParams (domains : List String) (token : String) (ip ipv6 : Option String)
    (verbose clear : Option Bool) : List (String × String) :=
  [("domains", String.intercalate "," domains), ("token", token)]
  ++ (match ip with | some v => [("ip", v)] | none => [])
  ++ (match ipv6 with | some v => [("ipv6", v)] | none => [])
  ++ (match verbose with | some v => [("verbose", boolToString v)] | none => [])
  ++ (match clear with | some v => [("clear", boolToString v)] | none => [])

/-- src/main.rs `DuckDns::update`, response part: inline send / text error
mapping, then the `starts_with("OK")` interpretation.  The built parameter
map rides on the request; the returned value depends only on the HTTP
outcome, which the caller supplies as `o`. -/
def mainUpdate (domains : List String) (token : String) (ip ipv6 : Option String)
    (verbose clear : Option Bool) (o : TransportOutcome) : Except String Unit :=
  let _params := mainBuildParams domains token ip ipv6 verbose clear
  match o with
  | .sendErr e => .error ("Error sending request: " ++ e)
  | .textErr e => .error ("Error reading response body: " ++ e)
  | .body s => if strStartsWith s "OK" then .ok () else .error ("Update failed: " ++ s)

/-- src/main.rs `DuckDns::update_txt`, parameter-building part. -/
def mainBuildTxtParams (domains : List String) (token txt : String)
    (verbose clear : Option Bool) : List (String × String) :=
  [("domains", String.intercalate "," domains), ("token", token), ("txt", txt)]
  ++ (match verbose with | some v => [("verbose", boolToString v)] | none => [])
  ++ (match clear with | some v => [("clear", boolToString v)] | none => [])

/-- src/main.rs `DuckDns::update_txt`, response part. -/
def mainUpdateTxt (domains : List String) (token txt : String)
    (verbose clear : Option Bool) (o : TransportOutcome) : Except String Unit :=
  let _params := mainBuildTxtParams domains token txt verbose clear
  match o with
  | .sendErr e => .error ("Error sending request: " ++ e)
  | .textErr e => .error ("Error reading response body: " ++ e)
  | .body s => if strStartsWith s "OK" then .ok () else .error ("Update failed: " ++ s)

/-- src/duckdns.rs `DuckDns::build_params`. -/
def DuckDns.build_params (domains : List String) (token : String) (ip ipv6 : Option String)
    (verbose clear : Option Bool) : List (String × String) :=
  [("domains", String.intercalate "," domains), ("token", token)]
  ++ (match ip with | some v => [("ip", v)] | none => [])
  ++ (match ipv6 with | some v => [("ipv6", v)] | none => [])
  ++ (match verbose with | some v => [("verbose", boolToString v)] | none => [])
  ++ (match clear with | some v => [("clear", boolToString v)] | none => [])

/-- src/duckdns.rs `DuckDns::<T>::update`, generic over the client's
`send_request` (which receives the built parameter map). -/
def DuckDns.update (send : List (String × String) → Except String String)
    (domains : List String) (token : String) (ip ipv6 : Option String)
    (verbose clear : Option Bool) : Except String Unit :=
  match send (DuckDns.build_params domains token ip ipv6 verbose clear) with
  | .error e => .error e
  | .ok response =>
    if strStartsWith response "OK" then .ok () else .error ("Update failed: " ++ response)

/-- src/duckdns.rs `DuckDns::build_txt_params`. -/
def DuckDns.build_txt_params (domains : List String) (token txt : String)
    (verbose clear : Option Bool) : List (String × String) :=
  [("domains", String.intercalate "," domains), ("token", token), ("txt", txt)]
  ++ (match verbose with | some v => [("verbose", boolToString v)] | none => [])
  ++ (match clear with | some v => [("clear", boolToString v)] | none => [])

/-- src/duckdns.rs `DuckDns::<T>::update_txt`. -/
def DuckDns.update_txt (send : List (String × String) → Except String String)
    (domains : List String) (token txt : String)
    (verbose clear : Option Bool) : Except String Unit :=
  match send (DuckDns.build_txt_params domains token txt verbose clear) with
  | .error e => .error e
  | .ok response =>
    if strStartsWith response "OK" then .ok () else .error ("Update failed: " ++ response)

/-! ## Orchestrator (src/main.rs `main`)

Per domain the loop may probe the v6 echo service, then possibly the v4
echo service, then possibly call the DuckDNS update.  The oracle fixes the
outcome each of those calls would have for this entry; the run is recorded
as an event trace (probes, the update call with its parameters, and every
printed line). -/

structure DomainOracle where
  v6Http : HttpOutcome
  v4Http : HttpOutcome
  updHttp : TransportOutcome

inductive Probe where
  | v6
  | v4
deriving DecidableEq, Repr

/-- The inline v6-then-v4 fallback match in `main` (lines 235-238), with
the probes actually made recorded in order. -/
def resolvePreferred (o : DomainOracle) : Except String IpAddr × List Probe :=
  match resolve_public_ipv6 o.v6Http with
  | .ok ip => (.ok ip, [.v6])
  | .error _ => (resolve_public_ip o.v4Http, [.v6, .v4])

deriving instance DecidableEq for Except

inductive Event where
  | logDomain (d : Domain)
  | probeV6
  | probeV4
  | logIpFound (name : String) (ip : IpAddr)
  | updateCall (params : List (String × String))
  | logResult (r : Except String Unit)
deriving DecidableEq, Repr

def probeEvent : Probe → Event
  | .v6 => .probeV6
  | .v4 => .probeV4

/-- Events of the update phase for one entry once an IP was found:
the "IP found" line, the single-domain update call, the result line. -/
def updateEvents (o : DomainOracle) (d : Domain) (ip : IpAddr) : List Event :=
  [.logIpFound d.name ip,
   .updateCall (mainBuildParams [d.name] d.token (some (ipToString ip)) none none none),
   .logResult (mainUpdate [d.name] d.token (some (ipToString ip)) none none none o.updHttp)]

/-- One iteration of the `for domain in config.domains` loop: print the
entry; only `Some(Public)` triggers resolution, and only a successful
resolution triggers the update; a failed resolution `continue`s. -/
def processDomain (o : DomainOracle) (d : Domain) : List Event :=
  Event.logDomain d ::
    match d.ip with
    | some .public =>
      let rp := resolvePreferred o
      rp.2.map probeEvent ++
        (match rp.1 with
         | .ok ip => updateEvents o d ip
         | .error _ => [])
    | _ => []

/-- The full loop over the domain list, in file order; the oracle is
indexed by the entry's position. -/
def runBatch (oracle : Nat → DomainOracle) : List Domain → Nat → List Event
  | [], _ => []
  | d :: rest, i => processDomain (oracle i) d ++ runBatch oracle rest (i + 1)

/-! ### Rendering of the printed lines (Rust `Debug`/`Display` formatting) -/

def rustEscapeChar (c : Char) : String :=
  if c = '"' then "\\\""
  else if c = '\\' then "\\\\"
  else if c = '\n' then "\\n"
  else if c = '\r' then "\\r"
  else if c = '\t' then "\\t"
  else String.singleton c

def rustDebugStr (s : String) : String :=
  "\"" ++ String.join (s.data.map rustEscapeChar) ++ "\""

def debugConfigIp : ConfigIp → String
  | .public => "Public"
  | .iPv4 s => "IPv4(" ++ rustDebugStr s ++ ")"
  | .iPv6 s => "IPv6(" ++ rustDebugStr s ++ ")"

def debugOptionIp : Option ConfigIp → String
  | none => "None"
  | some ip => "Some(" ++ debugConfigIp ip ++ ")"

/-- `println!("{:?}", domain)` under `derive(Debug)`. -/
def debugDomain (d : Domain) : String :=
  "Domain \x7b name: " ++ rustDebugStr d.name ++ ", token: " ++ rustDebugStr d.token
    ++ ", ip: " ++ debugOptionIp d.ip ++ " \x7d"

/-- `println!("{:?}", res)` on the update result. -/
def debugResult : Except String Unit → String
  | .ok _ => "Ok(())"
  | .error e => "Err(" ++ rustDebugStr e ++ ")"

/-- The line an event prints, if any (probes and the update request itself
print nothing). -/
def renderEventOpt : Event → Option String
  | .logDomain d => some (debugDomain d)
  | .probeV6 => none
  | .probeV4 => none
  | .logIpFound name ip => some ("IP found for domain " ++ name ++ " => " ++ ipToString ip)
  | .updateCall _ => none
  | .logResult r => some (debugResult r)

def renderEvents : List Event → List String
  | [] => []
  | e :: rest =>
    match renderEventOpt e with
    | some line => line :: renderEvents rest
    | none => renderEvents rest

/-- src/main.rs `main`, given the outcome of `load_config` and the
per-entry HTTP oracle: the printed lines and the process exit code.
`fn main()` returns `()` on every path and never calls `process::exit`,
so the process exit status is 0 on both branches. -/
def mainRun (loadResult : Except String Config) (oracle : Nat → DomainOracle) :
    List String × Nat :=
  match loadResult with
  | .ok config =>
    ("Successfully loaded config:" :: renderEvents (runBatch oracle config.domains 0), 0)
  | .error e => (["Error loading config: " ++ e], 0)

def isUpdateCall : Event → Bool
  | .updateCall _ => true
  | _ => false

/-- An oracle for runs in which every network call fails at transport
level (the update body is irrelevant when no update is reached). -/
def oracleDown : DomainOracle :=
  ⟨.sendErr "network down", .sendErr "network down", .body "OK"⟩

/-- The two-domain batch of the spec's exit-code scenario: both entries use
public discovery; entry 0's update body is `"KO"`, entry 1's is `"OK"`. -/
def cfgKoOk : Config := ⟨[⟨"a", "ta", some .public⟩, ⟨"b", "tb", some .public⟩]⟩

def oracleKoOk : Nat → DomainOracle := fun i =>
  if i = 0 then ⟨.response 200 "203.0.113.7", .sendErr "unreachable", .body "KO"⟩
  else ⟨.response 200 "203.0.113.7", .sendErr "unreachable", .body "OK"⟩

example : parseIpAddr "1.2.3.4" = some (.v4 1 2 3 4) := by decide
example : parseIpAddr "10.0.0.1" = some (.v4 10 0 0 1) := by decide
example : parseIpAddr "::1" = some (.v6 [0, 0, 0, 0, 0, 0, 0, 1]) := by decide
example : parseIpAddr "not-an-ip" = none := by decide
example : parseIpAddr "" = none := by decide
example : parseIpAddr "1.2.3.04" = none := by decide
example : parseIpAddr "fe80::1" = some (.v6 [0xfe80, 0, 0, 0, 0, 0, 0, 1]) := by decide
example : ipToString (.v4 10 0 0 1) = "10.0.0.1" := by decide
example : ipToString (.v6 [0xfe80, 0, 0, 0, 0, 0, 0, 1]) = "fe80::1" := by decide
example : ipToString (.v6 [0, 0, 0, 0, 0, 0, 0, 1]) = "::1" := by decide

example : strStartsWith "OK\nupdated" "OK" = true := by decide
example : strStartsWith "KO" "OK" = false := by decide
example : strStartsWith "" "OK" = false := by decide
example : (0o100644 : Nat) &&& 0o777 = 0o644 := by decide
example : processDomain oracleDown ⟨"a", "s", none⟩ = [.logDomain ⟨"a", "s", none⟩] := by decide
example :
    (mainRun (.ok ⟨[⟨"a", "secret123", none⟩]⟩) (fun _ => oracleDown)).1 =
      ["Successfully loaded config:",
       "Domain \x7b name: \"a\", token: \"" ++ "secret123" ++ "\", ip: None \x7d"] := by decide

/-! ## Claims -/

/-- Claim C1: for every configuration file whose permission bits are not
exactly 0600, `Config::load` (config.rs) and `load_config` (main.rs) fail
with the permission error before parsing, and the file content is never
read; the gate is passed only when the permission bits are exactly 0600. -/
theorem c1_secure_mode_gate (path : String) (f : FsFile)
    (parseYaml : String → Except String Config) :
    (f.mode &&& 0o777 ≠ 0o600 →
      load_config_at path f parseYaml =
        (.error ("Config file " ++ path ++ " must have mode 600"),
         [.readMetadata path]) ∧
      Config.load_at path f parseYaml =
        (.error ("Config file '" ++ path ++ "' must have mode 600, found "
            ++ natToOctal (f.mode &&& 0o777)),
         [.readMetadata path])) ∧
    (FsEvent.readContent path ∈ (load_config_at path f parseYaml).2 →
      f.mode &&& 0o777 = 0o600) ∧
    (FsEvent.readContent path ∈ (Config.load_at path f parseYaml).2 →
      f.mode &&& 0o777 = 0o600) := by
  by_cases h : f.mode &&& 0o777 = 0o600 <;>
    simp [load_config_at, Config.load_at, check_secure_file_mode,
      Config.check_secure_file_mode, h]

theorem c1_secure_mode_gate_witness :
    (0o100644 : Nat) &&& 0o777 ≠ 0o600 ∧
    load_config_at "/etc/ducksync/config.yaml" ⟨0o100644, "domains: []"⟩
        (fun _ => .ok ⟨[]⟩) =
      (.error "Config file /etc/ducksync/config.yaml must have mode 600",
       [.readMetadata "/etc/ducksync/config.yaml"]) := by
  refine ⟨by decide, ?_⟩
  have h := (c1_secure_mode_gate "/etc/ducksync/config.yaml" ⟨0o100644, "domains: []"⟩
    (fun _ => .ok ⟨[]⟩)).1 (by decide)
  simpa using h.1

/-- Claim C6: the inline preferred-IP resolution of `main` probes IPv6
first and returns the IPv6 result whenever that probe succeeds (the IPv4
probe is not even made); when the IPv6 probe fails it returns the IPv4
result; it fails only when both probes fail; and each family is attempted
at most once. -/
theorem c6_resolve_preferred (o : DomainOracle) :
    (∀ ip, resolve_public_ipv6 o.v6Http = .ok ip →
      resolvePreferred o = (.ok ip, [.v6])) ∧
    (∀ e, resolve_public_ipv6 o.v6Http = .error e →
      resolvePreferred o = (resolve_public_ip o.v4Http, [.v6, .v4])) ∧
    ((∃ e, (resolvePreferred o).1 = .error e) ↔
      (∃ e, resolve_public_ipv6 o.v6Http = .error e) ∧
      (∃ e, resolve_public_ip o.v4Http = .error e)) ∧
    (resolvePreferred o).2.count .v6 ≤ 1 ∧
    (resolvePreferred o).2.count .v4 ≤ 1 := by
  unfold resolvePreferred
  cases h6 : resolve_public_ipv6 o.v6Http with
  | error e6 =>
    cases h4 : resolve_public_ip o.v4Http <;> simp [h6, h4, List.count]
  | ok ip6 =>
    simp [h6, List.count]

theorem c6_resolve_preferred_witness :
    resolve_public_ipv6 (HttpOutcome.response 200 "203.0.113.7") =
      .ok (.v4 203 0 113 7) ∧
    resolvePreferred ⟨.response 200 "203.0.113.7", .sendErr "x", .body "OK"⟩ =
      (.ok (.v4 203 0 113 7), [.v6]) ∧
    resolve_public_ipv6 (HttpOutcome.sendErr "down") = .error "down" ∧
    resolvePreferred ⟨.sendErr "down", .response 200 "198.51.100.2", .body "OK"⟩ =
      (.ok (.v4 198 51 100 2), [.v6, .v4]) := by
  refine ⟨by decide, ?_, by decide, ?_⟩
  · exact (c6_resolve_preferred
      ⟨.response 200 "203.0.113.7", .sendErr "x", .body "OK"⟩).1
      (.v4 203 0 113 7) (by decide)
  · have h := (c6_resolve_preferred
      ⟨.sendErr "down", .response 200 "198.51.100.2", .body "OK"⟩).2.1
      "down" (by decide)
    simpa using h

/-- Claim C7: `update()` and `update_txt()` (both the generic duckdns.rs
versions and the inline main.rs versions) succeed exactly when the response
body starts with the literal `"OK"`; any other body yields a failure whose
error detail carries the raw body text. -/
theorem c7_ok_prefix_interpretation (domains : List String) (token txt : String)
    (ip ipv6 : Option String) (verbose clear : Option Bool) (s : String) :
    (DuckDns.update (fun _ => .ok s) domains token ip ipv6 verbose clear = .ok () ↔
      strStartsWith s "OK" = true) ∧
    (strStartsWith s "OK" = false →
      DuckDns.update (fun _ => .ok s) domains token ip ipv6 verbose clear =
        .error ("Update failed: " ++ s)) ∧
    (DuckDns.update_txt (fun _ => .ok s) domains token txt verbose clear = .ok () ↔
      strStartsWith s "OK" = true) ∧
    (strStartsWith s "OK" = false →
      DuckDns.update_txt (fun _ => .ok s) domains token txt verbose clear =
        .error ("Update failed: " ++ s)) ∧
    (mainUpdate domains token ip ipv6 verbose clear (.body s) = .ok () ↔
      strStartsWith s "OK" = true) ∧
    (strStartsWith s "OK" = false →
      mainUpdate domains token ip ipv6 verbose clear (.body s) =
        .error ("Update failed: " ++ s)) ∧
    (mainUpdateTxt domains token txt verbose clear (.body s) = .ok () ↔
      strStartsWith s "OK" = true) ∧
    (strStartsWith s "OK" = false →
      mainUpdateTxt domains token txt verbose clear (.body s) =
        .error ("Update failed: " ++ s)) := by
  cases h : strStartsWith s "OK" <;>
    simp [DuckDns.update, DuckDns.update_txt, mainUpdate, mainUpdateTxt, h]

theorem c7_ok_prefix_interpretation_witness :
    DuckDns.update (fun _ => .ok "OK") ["example"] "t" (some "1.2.3.4") none none none =
      .ok () ∧
    DuckDns.update (fun _ => .ok "OK\nupdated") ["example"] "t" none none none none =
      .ok () ∧
    DuckDns.update (fun _ => .ok "KO") ["example"] "t" none none none none =
      .error ("Update failed: " ++ "KO") ∧
    DuckDns.update (fun _ => .ok "") ["example"] "t" none none none none =
      .error ("Update failed: " ++ "") := by
  refine ⟨?_, ?_, ?_, ?_⟩
  · exact (c7_ok_prefix_interpretation ["example"] "t" "" (some "1.2.3.4")
      none none none "OK").1.mpr (by decide)
  · exact (c7_ok_prefix_interpretation ["example"] "t" "" none none none none
      "OK\nupdated").1.mpr (by decide)
  · exact (c7_ok_prefix_interpretation ["example"] "t" "" none none none none
      "KO").2.1 (by decide)
  · exact (c7_ok_prefix_interpretation ["example"] "t" "" none none none none
      "").2.1 (by decide)

/-- Claim C9: the inline `DuckDns::update` of main.rs and the generic
`DuckDns::<T>::update` of duckdns.rs are behaviourally equivalent: on the
same arguments they build the same query parameter map, and on the same
transport outcome they return the same result. -/
theorem c9_inline_update_matches_generic (domains : List String) (token : String)
    (ip ipv6 : Option String) (verbose clear : Option Bool) (o : TransportOutcome) :
    mainBuildParams domains token ip ipv6 verbose clear =
      DuckDns.build_params domains token ip ipv6 verbose clear ∧
    mainUpdate domains token ip ipv6 verbose clear o =
      DuckDns.update (fun _ => reqwestSendRequest o) domains token ip ipv6 verbose clear := by
  refine ⟨rfl, ?_⟩
  cases o <;> rfl

/-- Claim C10: a `DomainEntry` whose `ip` field is omitted is skipped
entirely — no discovery probe, no update call, no result line; only the
entry's own debug line is printed — and the sibling entries that follow are
still processed. -/
theorem c10_unset_entry_skipped (oracle : Nat → DomainOracle) (d : Domain)
    (rest : List Domain) (i : Nat) (h : d.ip = none) :
    processDomain (oracle i) d = [.logDomain d] ∧
    runBatch oracle (d :: rest) i = .logDomain d :: runBatch oracle rest (i + 1) := by
  constructor
  · simp [processDomain, h]
  · simp [runBatch, processDomain, h]

theorem c10_unset_entry_skipped_witness :
    processDomain (oracleKoOk 0) ⟨"a", "s", none⟩ = [.logDomain ⟨"a", "s", none⟩] ∧
    runBatch oracleKoOk [⟨"a", "s", none⟩, ⟨"b", "tb", some .public⟩] 0 =
      .logDomain ⟨"a", "s", none⟩ ::
        runBatch oracleKoOk [⟨"b", "tb", some .public⟩] 1 := by
  exact c10_unset_entry_skipped oracleKoOk ⟨"a", "s", none⟩
    [⟨"b", "tb", some .public⟩] 0 rfl

/-- Claim C2 counterexample: a batch holding one entry with the fixed IPv4
address `"10.0.0.1"` performs zero discovery calls — but also zero update
calls: the only event is the entry's debug line, refuting the claim that
`DuckDns::update` is called with the fixed address. -/
theorem c2_fixed_ip_no_update_cex :
    runBatch (fun _ => oracleDown) [⟨"b", "tb", some (.iPv4 "10.0.0.1")⟩] 0 =
      [.logDomain ⟨"b", "tb", some (.iPv4 "10.0.0.1")⟩] ∧
    (runBatch (fun _ => oracleDown) [⟨"b", "tb", some (.iPv4 "10.0.0.1")⟩] 0).any
        isUpdateCall = false := by
  decide

/-- Claim C2 (amended): every `DomainEntry` whose ipSelection is a fixed
IPv4 or IPv6 address triggers zero discovery calls and zero update calls —
the loop body matches only `Some(Public)`, so the entry is ignored apart
from its debug line. -/
theorem c2_fixed_ip_entry_ignored (o : DomainOracle) (d : Domain) (s : String)
    (h : d.ip = some (.iPv4 s) ∨ d.ip = some (.iPv6 s)) :
    processDomain o d = [.logDomain d] := by
  rcases h with h | h <;> simp [processDomain, h]

theorem c2_fixed_ip_entry_ignored_witness :
    processDomain oracleDown ⟨"b", "tb", some (.iPv4 "10.0.0.1")⟩ =
      [.logDomain ⟨"b", "tb", some (.iPv4 "10.0.0.1")⟩] := by
  exact c2_fixed_ip_entry_ignored oracleDown ⟨"b", "tb", some (.iPv4 "10.0.0.1")⟩
    "10.0.0.1" (Or.inl rfl)

/-- Claim C3: the code prints every entry with `println!("{:?}", domain)`,
and the `Debug` derive for `Domain` includes the `token` field — so the
token appears verbatim in the program's output, here spliced out
explicitly in the second printed line. -/
theorem c3_token_printed_in_output :
    (mainRun (.ok ⟨[⟨"a", "secret123", none⟩]⟩) (fun _ => oracleDown)).1 =
      ["Successfully loaded config:",
       "Domain \x7b name: \"a\", token: \"" ++ "secret123" ++ "\", ip: None \x7d"] := by
  decide

/-- Claim C4 counterexample: in the two-domain batch whose update bodies
are `"KO"` (entry a) and `"OK"` (entry b), the failure and the success are
each reported on their own line — yet the process exit code is 0, refuting
"exits non-zero". -/
theorem c4_exit_zero_on_failure_cex :
    (mainRun (.ok cfgKoOk) oracleKoOk).2 = 0 ∧
    "Err(\"Update failed: KO\")" ∈ (mainRun (.ok cfgKoOk) oracleKoOk).1 ∧
    "Ok(())" ∈ (mainRun (.ok cfgKoOk) oracleKoOk).1 := by
  decide

/-- Claim C4 (amended): per-domain successes and failures are each reported
individually, but the process exit code is always 0 — `main` returns `()`
on every path and never sets an exit status, so the exit code reflects
neither update failures nor even config-load failures. -/
theorem c4_exit_code_always_zero :
    (∀ (loadResult : Except String Config) (oracle : Nat → DomainOracle),
      (mainRun loadResult oracle).2 = 0) ∧
    "Err(\"Update failed: KO\")" ∈ (mainRun (.ok cfgKoOk) oracleKoOk).1 ∧
    "Ok(())" ∈ (mainRun (.ok cfgKoOk) oracleKoOk).1 := by
  refine ⟨fun loadResult oracle => ?_, by decide, by decide⟩
  cases loadResult <;> rfl

/-- Claim C5: per-domain failures are isolated.  (1) The batch is a plain
fold in file order: each entry's events are emitted, then the rest of the
list is processed unconditionally — no outcome of an entry aborts its
siblings.  (2) When resolution fails for a public entry the entry is
skipped: both probes happen, but no update call and no result line.
(3) When resolution succeeds, the update is attempted and its outcome —
success or failure — is recorded as the entry's final result event. -/
theorem c5_per_domain_isolation :
    (∀ (oracle : Nat → DomainOracle) (d : Domain) (rest : List Domain) (i : Nat),
      runBatch oracle (d :: rest) i =
        processDomain (oracle i) d ++ runBatch oracle rest (i + 1)) ∧
    (∀ (o : DomainOracle) (d : Domain) (e : String),
      d.ip = some .public → (resolvePreferred o).1 = .error e →
      processDomain o d = [.logDomain d, .probeV6, .probeV4]) ∧
    (∀ (o : DomainOracle) (d : Domain) (ip : IpAddr),
      d.ip = some .public → (resolvePreferred o).1 = .ok ip →
      processDomain o d =
        .logDomain d :: ((resolvePreferred o).2.map probeEvent ++ updateEvents o d ip) ∧
      (updateEvents o d ip).getLast? =
        some (.logResult (mainUpdate [d.name] d.token (some (ipToString ip))
          none none none o.updHttp))) := by
  refine ⟨fun oracle d rest i => rfl, ?_, ?_⟩
  · intro o d e hip herr
    unfold processDomain
    rw [hip]
    unfold resolvePreferred at herr ⊢
    cases h6 : resolve_public_ipv6 o.v6Http with
    | ok ip6 => rw [h6] at herr; simp at herr
    | error e6 =>
      rw [h6] at herr
      simp only at herr
      simp [h6, herr, probeEvent]
  · intro o d ip hip hok
    refine ⟨?_, by simp [updateEvents]⟩
    unfold processDomain
    rw [hip]
    simp only []
    simp [hok]

theorem c5_per_domain_isolation_witness :
    processDomain oracleDown ⟨"a", "ta", some .public⟩ =
      [.logDomain ⟨"a", "ta", some .public⟩, .probeV6, .probeV4] ∧
    processDomain (oracleKoOk 0) ⟨"a", "ta", some .public⟩ =
      .logDomain ⟨"a", "ta", some .public⟩ ::
        ((resolvePreferred (oracleKoOk 0)).2.map probeEvent ++
          updateEvents (oracleKoOk 0) ⟨"a", "ta", some .public⟩ (.v4 203 0 113 7)) := by
  refine ⟨?_, ?_⟩
  · exact c5_per_domain_isolation.2.1 oracleDown ⟨"a", "ta", some .public⟩
      "network down" rfl (by decide)
  · exact (c5_per_domain_isolation.2.2 (oracleKoOk 0) ⟨"a", "ta", some .public⟩
      (.v4 203 0 113 7) rfl (by decide)).1

/-- Claim C8 counterexample: `Ipify::ipv4` with a response body `"::1"`
succeeds and returns an IPv6 address — the family is never checked against
the endpoint; and a response with non-success HTTP status 500 whose body
parses still succeeds — the status is never inspected. -/
theorem c8_wrong_family_and_status_cex :
    (Ipify.ipv4 (fun _ => .ok "::1")).1 = .ok (.v6 [0, 0, 0, 0, 0, 0, 0, 1]) ∧
    Ipify.get (reqwestFetchIp (.response 500 "1.2.3.4")) = .ok (.v4 1 2 3 4) := by
  decide

/-- Claim C8 (amended): `ipv4()`/`ipv6()` each issue exactly one outbound
request, to their own endpoint; they fail on transport failure and on an
unparsable body; a parsable body of either address family is accepted
as-is, and the HTTP status of the response never influences the result. -/
theorem c8_single_request_parse_either_family
    (fetcher : String → Except String String) (e body : String) (ip : IpAddr)
    (s1 s2 : Nat) :
    ((Ipify.ipv4 fetcher).2 = [IPIFY_API4] ∧ (Ipify.ipv6 fetcher).2 = [IPIFY_API6]) ∧
    (fetcher IPIFY_API4 = .error e → (Ipify.ipv4 fetcher).1 = .error e) ∧
    (fetcher IPIFY_API6 = .error e → (Ipify.ipv6 fetcher).1 = .error e) ∧
    (fetcher IPIFY_API4 = .ok body → parseIpAddr body = none →
      (Ipify.ipv4 fetcher).1 = .error addrParseErrorMsg) ∧
    (fetcher IPIFY_API6 = .ok body → parseIpAddr body = none →
      (Ipify.ipv6 fetcher).1 = .error addrParseErrorMsg) ∧
    (fetcher IPIFY_API4 = .ok body → parseIpAddr body = some ip →
      (Ipify.ipv4 fetcher).1 = .ok ip) ∧
    (fetcher IPIFY_API6 = .ok body → parseIpAddr body = some ip →
      (Ipify.ipv6 fetcher).1 = .ok ip) ∧
    Ipify.get (reqwestFetchIp (.response s1 body)) =
      Ipify.get (reqwestFetchIp (.response s2 body)) := by
  refine ⟨⟨rfl, rfl⟩, ?_, ?_, ?_, ?_, ?_, ?_, rfl⟩ <;>
    intro h <;>
    simp [Ipify.ipv4, Ipify.ipv6, Ipify.get, h]
  all_goals intro hp
  all_goals simp [hp]

theorem c8_single_request_parse_either_family_witness :
    (Ipify.ipv4 (fun _ => .error "connect timeout")).1 = .error "connect timeout" ∧
    (Ipify.ipv4 (fun _ => .ok "not-an-ip")).1 = .error addrParseErrorMsg ∧
    (Ipify.ipv6 (fun _ => .ok "2001:db8::7")).1 =
      .ok (.v6 [0x2001, 0xdb8, 0, 0, 0, 0, 0, 7]) := by
  refine ⟨?_, ?_, ?_⟩
  · exact (c8_single_request_parse_either_family (fun _ => .error "connect timeout")
      "connect timeout" "" (.v4 0 0 0 0) 0 0).2.1 rfl
  · exact (c8_single_request_parse_either_family (fun _ => .ok "not-an-ip")
      "" "not-an-ip" (.v4 0 0 0 0) 0 0).2.2.2.1 rfl (by decide)
  · exact (c8_single_request_parse_either_family (fun _ => .ok "2001:db8::7")
      "" "2001:db8::7" (.v6 [0x2001, 0xdb8, 0, 0, 0, 0, 0, 7]) 0 0).2.2.2.2.2.2.1
      rfl (by decide)
